import Mathlib

/-!
Verification of the batch-accumulation, backpressure-controlled, dual-sink
bulk-load pipeline (SQS to Redshift ingestion workers).

The definitions below are shallow embeddings of the TypeScript source:

* `waitForStatementCompletion` embeds
  `CleverTapRedshiftService.waitForStatementCompletion`
  (src/services/clevertap-redshift.service.ts, lines 276-343).
* `insertBatchData` / `insertBatchDataWithCopy` / `insertBatchDataWithInsert`
  embed the corresponding methods of `CleverTapRedshiftService`.
* `waitForCopyCompletion` embeds
  `CleverTapS3PathConsumer.waitForCopyCompletion`
  (src/workers/clevertap-s3-path-consumer.ts, lines 338-370).
* `pollStep` embeds one iteration of the accumulate/flush/commit loop of
  `CleverTapSqsConsumer.poll` (src/workers/clevertap-sqs-consumer.ts,
  lines 69-198).

External I/O (the Redshift Data API's DescribeStatement) is passed in as a
function from attempt index to the described response, so that the pure
control flow of the source is preserved exactly.
-/

/-- Result of one DescribeStatement call against the Redshift Data API.
`resultRows` is `ResultRows` (absent in JS modelled as `none`); `error`
is the `Error` field. -/
structure DescribeResponse where
  status : String
  resultRows : Option Nat
  error : Option String
deriving Repr, DecidableEq

/-- JavaScript `x || d` for an optional numeric `x`: `0`, like `undefined`,
is falsy and falls through to the default. -/
def jsOrNat (x : Option Nat) (d : Nat) : Nat :=
  match x with
  | none => d
  | some n => if n = 0 then d else n

/-- Loop body of `waitForStatementCompletion`: at each remaining-fuel step the
statement is described; FINISHED returns `ResultRows || 0`, FAILED or ABORTED
raises, anything else polls again.  Fuel exhaustion is the timeout error. -/
def waitStmtGo (describe : Nat → DescribeResponse) : Nat → Nat → Except String Nat
  | 0, _ => .error "Timeout waiting for CleverTap INSERT to complete"
  | fuel + 1, i =>
    let r := describe i
    if r.status = "FINISHED" then
      .ok (jsOrNat r.resultRows 0)
    else if r.status = "FAILED" ∨ r.status = "ABORTED" then
      .error ("CleverTap INSERT failed: " ++ r.error.getD "Unknown error")
    else
      waitStmtGo describe fuel (i + 1)

/-- Embeds `CleverTapRedshiftService.waitForStatementCompletion`: poll the
statement on a fixed 2-second interval for at most `maxRetries = 180`
attempts. -/
def waitForStatementCompletion (describe : Nat → DescribeResponse) : Except String Nat :=
  waitStmtGo describe 180 0

/-- Loop body of `CleverTapS3PathConsumer.waitForCopyCompletion`: FINISHED
returns `ResultRows || 1` (the constant 1 marks success when the Data API
reports zero rows for COPY); only FAILED raises; anything else, including
ABORTED, polls again. -/
def waitCopyGo (describe : Nat → DescribeResponse) : Nat → Nat → Except String Nat
  | 0, _ => .error "Timeout waiting for COPY"
  | fuel + 1, i =>
    let r := describe i
    if r.status = "FINISHED" then
      .ok (jsOrNat r.resultRows 1)
    else if r.status = "FAILED" then
      .error ("COPY failed: " ++ r.error.getD "Unknown error")
    else
      waitCopyGo describe fuel (i + 1)

/-- Embeds `CleverTapS3PathConsumer.waitForCopyCompletion` with its
`maxRetries = 180` bound. -/
def waitForCopyCompletion (describe : Nat → DescribeResponse) : Except String Nat :=
  waitCopyGo describe 180 0

/-- Embeds `CleverTapRedshiftService.insertBatchDataWithCopy` (the COPY path):
stage the batch to S3, submit the COPY statement, wait for completion, and on
success return the reported row count if positive, otherwise the submitted
item count (the Data API reports 0 rows for COPY). -/
def insertBatchDataWithCopy (events : List α) (describe : Nat → DescribeResponse) :
    Except String Nat :=
  match waitForStatementCompletion describe with
  | .ok rowsInserted => .ok (if rowsInserted > 0 then rowsInserted else events.length)
  | .error e => .error e

/-- Embeds `CleverTapRedshiftService.insertBatchDataWithInsert` (the INSERT
fallback): submit the multi-row INSERT and return the reported row count. -/
def insertBatchDataWithInsert (_events : List α) (describe : Nat → DescribeResponse) :
    Except String Nat :=
  waitForStatementCompletion describe

/-- Embeds `CleverTapRedshiftService.insertBatchData`: an empty batch is
rejected with an error; otherwise the COPY or INSERT path is taken according
to configuration. -/
def insertBatchData (useCopyCommand : Bool) (events : List α)
    (describe : Nat → DescribeResponse) : Except String Nat :=
  if events.length = 0 then
    .error "Cannot insert empty batch"
  else if useCopyCommand then
    insertBatchDataWithCopy events describe
  else
    insertBatchDataWithInsert events describe

/-- A described statement that is neither FINISHED nor FAILED nor ABORTED, so
the completion poll keeps waiting. -/
def isActiveStmt (r : DescribeResponse) : Prop :=
  r.status ≠ "FINISHED" ∧ r.status ≠ "FAILED" ∧ r.status ≠ "ABORTED"

/-- A described statement that is neither FINISHED nor FAILED; the COPY poll
of the S3-path consumer also keeps waiting on ABORTED. -/
def isActiveCopyStmt (r : DescribeResponse) : Prop :=
  r.status ≠ "FINISHED" ∧ r.status ≠ "FAILED"

/-- Accumulator state of `CleverTapSqsConsumer.poll`: the buffered events, the
receipt handles of the buffered messages, and the time of the last flush. -/
structure PollState (Ev : Type) where
  accumulatedEvents : List Ev
  receiptHandles : List String
  lastBatchTime : Nat
deriving Repr, DecidableEq

/-- Observable outcome of one iteration of `CleverTapSqsConsumer.poll`:
the new accumulator state, the batch flushed this iteration (events paired
with the receipt handles committed for it, `none` when no flush happened),
the logged trigger reason, and the receipt handles deleted from the queue. -/
structure PollStepResult (Ev : Type) where
  state : PollState Ev
  flushed : Option (List Ev × List String)
  triggerReason : Option String
  deleted : List String
deriving Repr

/-- Embeds one iteration of `CleverTapSqsConsumer.poll` after message receipt:
`parsed` lists, per received message, its parsed events and receipt handle;
`now` is the clock read for the flush decision; `loadResult` is the outcome of
`insertBatchData` on the flushed batch.  Messages are deleted only when the
load returned a positive row count; on a zero count or an error the handles
are dropped without deletion so the queue redelivers them. -/
def pollStep (targetBatchSize maxWaitTimeMs : Nat) (s : PollState Ev)
    (parsed : List (List Ev × String)) (now : Nat)
    (loadResult : List Ev → Except String Nat) : PollStepResult Ev :=
  let accumulatedEvents := s.accumulatedEvents ++ (parsed.map Prod.fst).flatten
  let receiptHandles := s.receiptHandles ++ parsed.map Prod.snd
  let timeSinceLastBatch := now - s.lastBatchTime
  let shouldFlush := accumulatedEvents.length ≥ targetBatchSize ∨
      (accumulatedEvents.length > 0 ∧ timeSinceLastBatch ≥ maxWaitTimeMs)
  if shouldFlush ∧ accumulatedEvents.length > 0 then
    let reason :=
      if accumulatedEvents.length ≥ targetBatchSize then "batch_size_reached" else "timeout"
    match loadResult accumulatedEvents with
    | .ok rowsInserted =>
      if rowsInserted > 0 then
        { state := ⟨[], [], now⟩
          flushed := some (accumulatedEvents, receiptHandles)
          triggerReason := some reason
          deleted := receiptHandles }
      else
        { state := ⟨[], [], now⟩
          flushed := some (accumulatedEvents, receiptHandles)
          triggerReason := some reason
          deleted := [] }
    | .error _ =>
      { state := ⟨[], [], now⟩
        flushed := some (accumulatedEvents, receiptHandles)
        triggerReason := some reason
        deleted := [] }
  else
    { state := ⟨accumulatedEvents, receiptHandles, s.lastBatchTime⟩
      flushed := none
      triggerReason := none
      deleted := [] }

/-- Embeds the adaptive-throttling delay applied before submitting a batch in
`SQSConsumer.poll` (the aggressive-throttling variant): over 450 running
statements sleeps 30s, over 350 sleeps 20s, over 250 sleeps 10s, over 150
sleeps 3s, otherwise no delay. -/
def preSubmitDelayMs (runningStatements : Nat) : Nat :=
  if runningStatements > 450 then 30000
  else if runningStatements > 350 then 20000
  else if runningStatements > 250 then 10000
  else if runningStatements > 150 then 3000
  else 0

/-- Embeds the recheck in `SQSConsumer.poll`: only in the over-450 branch is
`getRunningStatementCount` read a second time before proceeding. -/
def preSubmitRecheckNeeded (runningStatements : Nat) : Bool :=
  runningStatements > 450

/-- Embeds the extra wait after the recheck: another 30s when the re-read
count is still over 400. -/
def preSubmitExtraDelayMs (recheckCount : Nat) : Nat :=
  if recheckCount > 400 then 30000 else 0

/-- Total wall-clock delay before submission as a function of the first read
and (when the recheck fires) the second read of the running-statement count. -/
def preSubmitTotalDelayMs (runningStatements recheckCount : Nat) : Nat :=
  preSubmitDelayMs runningStatements +
    (if preSubmitRecheckNeeded runningStatements then preSubmitExtraDelayMs recheckCount else 0)

/-- Embeds the mandatory rate-limiting delay applied after a successful batch
in `SQSConsumer.poll`, before the next submission: over 300 running statements
sleeps 15s, over 200 sleeps 10s, over 100 sleeps 5s, otherwise the configured
`BATCH_DELAY_MS` (default 2000). -/
def postBatchDelayMs (batchDelayMs runningStatements : Nat) : Nat :=
  if runningStatements > 300 then 15000
  else if runningStatements > 200 then 10000
  else if runningStatements > 100 then 5000
  else batchDelayMs

/-- Word characters of the sanitizer's regex character class a-zA-Z0-9_. -/
def isWordChar (c : Char) : Prop :=
  c.isAlpha ∨ c.isDigit ∨ c = '_'

instance (c : Char) : Decidable (isWordChar c) := by
  unfold isWordChar; infer_instance

/-- Embeds the first sanitization step of `SchemaSyncService.addMissingColumns`
(replace every character outside a-zA-Z0-9_ by an underscore). -/
def replaceDisallowed (s : List Char) : List Char :=
  s.map fun c => if isWordChar c then c else '_'

/-- Embeds the second sanitization step (prefix an underscore when the name
starts with a digit). -/
def prefixDigit : List Char → List Char
  | [] => []
  | c :: rest => if c.isDigit then '_' :: c :: rest else c :: rest

/-- Embeds the third sanitization step (collapse every run of underscores to a
single underscore). -/
def collapseUnderscores : List Char → List Char
  | [] => []
  | [c] => [c]
  | c :: d :: rest =>
    if c = '_' ∧ d = '_' then collapseUnderscores (d :: rest)
    else c :: collapseUnderscores (d :: rest)

/-- ASCII lowercasing of one character, the behaviour of JavaScript
`toLowerCase` on the ASCII range the sanitizer produces. -/
def jsToLowerChar (c : Char) : Char :=
  match c with
  | 'A' => 'a' | 'B' => 'b' | 'C' => 'c' | 'D' => 'd' | 'E' => 'e' | 'F' => 'f'
  | 'G' => 'g' | 'H' => 'h' | 'I' => 'i' | 'J' => 'j' | 'K' => 'k' | 'L' => 'l'
  | 'M' => 'm' | 'N' => 'n' | 'O' => 'o' | 'P' => 'p' | 'Q' => 'q' | 'R' => 'r'
  | 'S' => 's' | 'T' => 't' | 'U' => 'u' | 'V' => 'v' | 'W' => 'w' | 'X' => 'x'
  | 'Y' => 'y' | 'Z' => 'z'
  | other => other

/-- ASCII-range model of JavaScript `String.prototype.toLowerCase`. -/
def jsToLower (s : String) : String :=
  String.mk (s.toList.map jsToLowerChar)

/-- Embeds the whole column-name sanitization of
`SchemaSyncService.addMissingColumns`: replace disallowed characters, guard a
leading digit, collapse repeated underscores, lowercase. -/
def sanitizeColumnName (column : String) : String :=
  String.mk
    ((collapseUnderscores (prefixDigit (replaceDisallowed column.toList))).map jsToLowerChar)

/-- Whether a character list still contains two adjacent underscores. -/
def hasDoubleUnderscore : List Char → Bool
  | c :: d :: rest => (c == '_' && d == '_') || hasDoubleUnderscore (d :: rest)
  | _ => false

/-- Case-insensitive column membership, the comparison
`existingColumnsLower.includes(lowercased)` of the schema synchronizer. -/
def ciMem (c : String) (db : List String) : Bool :=
  (db.map jsToLower).contains (jsToLower c)

/-- JavaScript `message.includes(pattern)` on strings. -/
def includesSub (s pat : String) : Bool :=
  decide (pat.toList <:+: s.toList)

/-- The ALTER statement issued for one missing column
(src/unnamed/part_015, line 167): a permissive wide-text type. -/
def alterAddColumnSql (tableName safeColumnName : String) : String :=
  "ALTER TABLE " ++ tableName ++ " ADD COLUMN " ++ safeColumnName ++ " VARCHAR(65535);"

/-- Error message raised by the warehouse when the added column already
exists; the model's ADD COLUMN fails exactly on a duplicate column. -/
def columnExistsError (c : String) : String :=
  "column " ++ c ++ " already exists"

/-- ADD COLUMN against a table whose columns are `db`: Redshift identifiers
are case-insensitive, so a duplicate is detected up to lowercasing; a
duplicate raises the column-already-exists error, otherwise the column is
appended. -/
def alterAddColumn (db : List String) (c : String) : Except String (List String) :=
  if (db.map jsToLower).contains (jsToLower c) then .error (columnExistsError c)
  else .ok (db ++ [c])

/-- Outcome of the column-adding loop of
`SchemaSyncService.addMissingColumns`: the final column set, the count
reported to the caller, the sanitized names for which an ALTER was issued,
and the error surfaced to the caller, if any. -/
structure AddColumnsResult where
  db : List String
  totalAdded : Nat
  issued : List String
  fatal : Option String
deriving Repr, DecidableEq

/-- Embeds the per-column loop of `SchemaSyncService.addMissingColumns`
(src/unnamed/part_015, lines 150-195): sanitize the field name, skip it when
sanitization leaves nothing, issue the ALTER, treat a column-already-exists
failure as success, and rethrow any other failure. -/
def addColumnsLoop (db : List String) : List String → AddColumnsResult
  | [] => ⟨db, 0, [], none⟩
  | column :: rest =>
    let safeColumnName := sanitizeColumnName column
    if safeColumnName = "" ∨ safeColumnName = "_" then
      addColumnsLoop db rest
    else
      match alterAddColumn db safeColumnName with
      | .ok db1 =>
        let r := addColumnsLoop db1 rest
        ⟨r.db, r.totalAdded + 1, safeColumnName :: r.issued, r.fatal⟩
      | .error e =>
        if includesSub e "already exists" then
          let r := addColumnsLoop db rest
          ⟨r.db, r.totalAdded + 1, safeColumnName :: r.issued, r.fatal⟩
        else
          ⟨db, 0, [safeColumnName], some e⟩

/-- Embeds `SchemaSyncService.addMissingColumns`: the observed fields whose
lowercased name is not among the lowercased existing columns are missing, and
the loop adds each of them. -/
def addMissingColumns (csvHeaders existingColumns : List String) : AddColumnsResult :=
  let existingColumnsLower := existingColumns.map jsToLower
  let missingColumns :=
    csvHeaders.filter fun h => !(existingColumnsLower.contains (jsToLower h))
  addColumnsLoop existingColumns missingColumns

/-- Embeds `SchemaSyncService.syncSchema` against a table whose column set is
`db` (the read of existing columns returns exactly `db`). -/
def syncSchema (db : List String) (csvHeaders : List String) : AddColumnsResult :=
  addMissingColumns csvHeaders db

/-- One message's outcome in `CleverTapS3PathConsumer.poll`. -/
structure PathMessageStep where
  deleteMessage : Bool
  statCategory : String
  markedProcessed : Bool
  scheduledForDeletion : Bool
deriving Repr, DecidableEq

/-- Embeds the per-message branch structure of `CleverTapS3PathConsumer.poll`
(src/workers/clevertap-s3-path-consumer.ts, lines 77-174): a message with no
path, a duplicate path, a missing file, a COPY returning zero rows, and a
COPY raising an error all still push the receipt handle for deletion; only a
COPY returning positive rows marks the file processed and schedules it for
deferred deletion. -/
def processPathMessage (hasPath alreadyProcessedInBatch fileExists : Bool)
    (copyResult : Except String Nat) : PathMessageStep :=
  if ¬hasPath then ⟨true, "invalid", false, false⟩
  else if alreadyProcessedInBatch then ⟨true, "processed", false, false⟩
  else if ¬fileExists then ⟨true, "missing", false, false⟩
  else
    match copyResult with
    | .ok rowsInserted =>
      if rowsInserted > 0 then ⟨true, "processed", true, true⟩
      else ⟨true, "failed", false, false⟩
    | .error errorMessage =>
      if includesSub errorMessage "does not exist" ∨ includesSub errorMessage "NoSuchKey" ∨
          includesSub errorMessage "NotFound" ∨
          (includesSub errorMessage "prefix" ∧ includesSub errorMessage "does not exist") then
        ⟨true, "missing", false, false⟩
      else
        ⟨true, "failed", false, false⟩

/-- Settled outcome of one bulk-load call under `Promise.allSettled`. -/
inductive LoadOutcome
  | fulfilled (statementId : String)
  | rejected (reason : String)
deriving Repr, DecidableEq

/-- Whether a settled load outcome is a rejection. -/
def LoadOutcome.isRejected : LoadOutcome → Bool
  | .rejected _ => true
  | .fulfilled _ => false

/-- Outcome of one fan-out commit: whether the batch is acknowledged, the
error surfaced on the primary path, if any, and the commit status. -/
structure CommitResult where
  acknowledged : Bool
  raisedToCaller : Option String
  commitStatus : String
deriving Repr, DecidableEq

/-- Modelled from the spec: the dual-write `RedshiftService.insertData`
described by spec section 4.4 and CHANGES_SUMMARY.md is absent from the
sources (only its configuration entity `SecondaryRedshiftClientFactory` and
its documentation are present).  Both target loads are started together and
settled independently via `Promise.allSettled`; the secondary outcome is only
logged; the primary outcome alone decides acknowledgment, and only a primary
failure is rethrown to the caller. -/
def commitBatch (primary : LoadOutcome) (secondaryEnabled : Bool)
    (secondary : LoadOutcome) : CommitResult :=
  match primary with
  | .fulfilled _ =>
    { acknowledged := true
      raisedToCaller := none
      commitStatus :=
        if secondaryEnabled ∧ secondary.isRejected then "PARTIAL_SUCCESS"
        else "SUCCESS" }
  | .rejected m =>
    { acknowledged := false
      raisedToCaller := some m
      commitStatus := "FAILED" }

/-- Every character produced by the disallowed-character replacement is a
word character. -/
theorem replaceDisallowed_word (l : List Char) :
    ∀ c ∈ replaceDisallowed l, isWordChar c := by
  intro c hc
  simp only [replaceDisallowed, List.mem_map] at hc
  obtain ⟨a, ha, rfl⟩ := hc
  split
  · assumption
  · decide

/-- The leading-digit guard only ever inserts an underscore. -/
theorem prefixDigit_sub (l : List Char) : ∀ c ∈ prefixDigit l, c ∈ l ∨ c = '_' := by
  intro c hc
  cases l with
  | nil => exact Or.inl hc
  | cons a rest =>
    simp only [prefixDigit] at hc
    split at hc
    · rcases List.mem_cons.mp hc with h | h
      · exact Or.inr h
      · exact Or.inl h
    · exact Or.inl hc

/-- After the leading-digit guard the head is never a digit. -/
theorem prefixDigit_head_not_digit (l : List Char) (x : Char)
    (hx : (prefixDigit l).head? = some x) : x.isDigit = false := by
  cases l with
  | nil => simp [prefixDigit] at hx
  | cons a rest =>
    simp only [prefixDigit] at hx
    split at hx
    · simp only [List.head?_cons, Option.some.injEq] at hx
      subst hx
      decide
    · rename_i hnd
      simp only [List.head?_cons, Option.some.injEq] at hx
      subst hx
      exact Bool.not_eq_true _ ▸ hnd

/-- Underscore collapsing only drops characters, never introduces one. -/
theorem collapseUnderscores_sub : ∀ l : List Char, ∀ c ∈ collapseUnderscores l, c ∈ l
  | [] => by intro c hc; exact hc
  | [a] => by intro c hc; exact hc
  | a :: d :: rest => by
    intro c hc
    simp only [collapseUnderscores] at hc
    split at hc
    · exact List.mem_cons_of_mem a (collapseUnderscores_sub (d :: rest) c hc)
    · rcases List.mem_cons.mp hc with h | h
      · exact h ▸ List.mem_cons_self a (d :: rest)
      · exact List.mem_cons_of_mem a (collapseUnderscores_sub (d :: rest) c h)

/-- Underscore collapsing keeps the head character. -/
theorem collapseUnderscores_head : ∀ l : List Char,
    (collapseUnderscores l).head? = l.head?
  | [] => rfl
  | [c] => rfl
  | c :: d :: rest => by
    simp only [collapseUnderscores]
    split
    · rename_i hcd
      rw [collapseUnderscores_head (d :: rest)]
      simp [hcd.1, hcd.2]
    · rfl

/-- Underscore collapsing leaves no two adjacent underscores. -/
theorem collapseUnderscores_noDouble : ∀ l : List Char,
    hasDoubleUnderscore (collapseUnderscores l) = false
  | [] => rfl
  | [c] => rfl
  | c :: d :: rest => by
    simp only [collapseUnderscores]
    split
    · exact collapseUnderscores_noDouble (d :: rest)
    · rename_i hcd
      have hhead := collapseUnderscores_head (d :: rest)
      have ih := collapseUnderscores_noDouble (d :: rest)
      cases hcol : collapseUnderscores (d :: rest) with
      | nil => rfl
      | cons e tail =>
        rw [hcol] at hhead ih
        simp only [List.head?_cons, Option.some.injEq] at hhead
        subst hhead
        simp only [hasDoubleUnderscore, ih, Bool.or_false]
        by_contra h
        rw [Bool.not_eq_false, Bool.and_eq_true, beq_iff_eq, beq_iff_eq] at h
        exact hcd h

/-- ASCII lowercasing maps word characters to word characters. -/
theorem jsToLowerChar_word (c : Char) (h : isWordChar c) : isWordChar (jsToLowerChar c) := by
  unfold jsToLowerChar
  split <;> first | decide | exact h

/-- ASCII lowercasing never produces a digit from a non-digit. -/
theorem jsToLowerChar_not_digit (c : Char) (h : c.isDigit = false) :
    (jsToLowerChar c).isDigit = false := by
  unfold jsToLowerChar
  split <;> first | decide | exact h

/-- ASCII lowercasing maps exactly the underscore to the underscore. -/
theorem jsToLowerChar_beq_underscore (c : Char) :
    (jsToLowerChar c == '_') = (c == '_') := by
  unfold jsToLowerChar
  split <;> first | decide | rfl

/-- ASCII lowercasing preserves the absence of adjacent underscores. -/
theorem hasDoubleUnderscore_map : ∀ l : List Char,
    hasDoubleUnderscore (l.map jsToLowerChar) = hasDoubleUnderscore l
  | [] => rfl
  | [c] => rfl
  | c :: d :: rest => by
    have ih := hasDoubleUnderscore_map (d :: rest)
    simp only [List.map_cons] at ih ⊢
    simp only [hasDoubleUnderscore, jsToLowerChar_beq_underscore, ih]

/-- The sanitized name, as a character list, is the composition of the four
sanitization steps. -/
theorem sanitizeColumnName_toList (column : String) :
    (sanitizeColumnName column).toList
      = (collapseUnderscores (prefixDigit (replaceDisallowed column.toList))).map
          jsToLowerChar := rfl

/-- C4: the delay applied before submitting a load is a monotonically
non-decreasing function of the reported concurrent-statement count across the
configured thresholds (both for the first read alone and for the total delay
including the recheck wait), the count is read once more exactly in the
near-saturation branch, and the post-batch rate-limiting delay is likewise
non-decreasing whenever the configured low-load delay does not exceed the
first threshold's delay (the default 2000 ms does not). -/
theorem backpressure_delay_monotone :
    (∀ n m : Nat, n ≤ m → preSubmitDelayMs n ≤ preSubmitDelayMs m) ∧
    (∀ n m r : Nat, n ≤ m → preSubmitTotalDelayMs n r ≤ preSubmitTotalDelayMs m r) ∧
    (∀ n : Nat, preSubmitRecheckNeeded n = true ↔ 450 < n) ∧
    (∀ d n m : Nat, d ≤ 5000 → n ≤ m → postBatchDelayMs d n ≤ postBatchDelayMs d m) := by
  refine ⟨?_, ?_, ?_, ?_⟩
  · intro n m h
    simp only [preSubmitDelayMs]
    split_ifs <;> omega
  · intro n m r h
    simp only [preSubmitTotalDelayMs, preSubmitDelayMs, preSubmitRecheckNeeded,
      preSubmitExtraDelayMs]
    split_ifs <;> simp only [decide_eq_true_eq] at * <;> omega
  · intro n
    simp [preSubmitRecheckNeeded]
  · intro d n m hd h
    simp only [postBatchDelayMs]
    split_ifs <;> omega

/-- Witness for C4 at concrete counts: 200 vs 360 running statements, a
recheck read of 410, and the default 2000 ms post-batch delay at 50 vs 260. -/
theorem backpressure_delay_monotone_witness :
    preSubmitDelayMs 200 ≤ preSubmitDelayMs 360 ∧
    preSubmitTotalDelayMs 200 410 ≤ preSubmitTotalDelayMs 460 410 ∧
    (preSubmitRecheckNeeded 460 = true ↔ 450 < 460) ∧
    postBatchDelayMs 2000 50 ≤ postBatchDelayMs 2000 260 :=
  ⟨backpressure_delay_monotone.1 200 360 (by decide),
   backpressure_delay_monotone.2.1 200 460 410 (by decide),
   backpressure_delay_monotone.2.2.1 460,
   backpressure_delay_monotone.2.2.2 2000 50 260 (by decide) (by decide)⟩

/-- C2: under the fan-out commit, a fulfilled primary load acknowledges the
batch and surfaces no error, a rejected primary load withholds
acknowledgment, and both the acknowledgment decision and the error surfaced
on the primary path are independent of the secondary target's outcome. -/
theorem fanout_primary_decides_ack :
    ∀ (primary : LoadOutcome) (enabled : Bool) (s1 s2 : LoadOutcome),
      ((∃ id, primary = .fulfilled id) →
        (commitBatch primary enabled s1).acknowledged = true ∧
        (commitBatch primary enabled s1).raisedToCaller = none) ∧
      (∀ m, primary = .rejected m →
        (commitBatch primary enabled s1).acknowledged = false ∧
        (commitBatch primary enabled s1).raisedToCaller = some m) ∧
      ((commitBatch primary enabled s1).acknowledged
          = (commitBatch primary enabled s2).acknowledged ∧
        (commitBatch primary enabled s1).raisedToCaller
          = (commitBatch primary enabled s2).raisedToCaller) := by
  intro primary enabled s1 s2
  cases primary <;> simp [commitBatch]

/-- Witness for C2: primary fulfilled while the enabled secondary is
rejected; the batch is still acknowledged with no error raised. -/
theorem fanout_primary_decides_ack_witness :
    (commitBatch (.fulfilled "stmt-1") true (.rejected "vpc down")).acknowledged = true ∧
    (commitBatch (.fulfilled "stmt-1") true (.rejected "vpc down")).raisedToCaller = none :=
  (fanout_primary_decides_ack (.fulfilled "stmt-1") true (.rejected "vpc down")
      (.fulfilled "s")).1 ⟨"stmt-1", rfl⟩

/-- C9: a flushed batch is never empty, an iteration with an empty buffer and
no received messages changes nothing and produces no batch, and the load
operation rejects an empty batch with an error instead of submitting it. -/
theorem flush_zero_items_noop :
    (∀ (Ev : Type) (targetBatchSize maxWaitTimeMs now : Nat) (s : PollState Ev)
        (parsed : List (List Ev × String)) (load : List Ev → Except String Nat)
        (b : List Ev × List String),
      (pollStep targetBatchSize maxWaitTimeMs s parsed now load).flushed = some b →
      b.1 ≠ []) ∧
    (∀ (Ev : Type) (targetBatchSize maxWaitTimeMs lastBatchTime now : Nat)
        (load : List Ev → Except String Nat),
      pollStep targetBatchSize maxWaitTimeMs ⟨[], [], lastBatchTime⟩ [] now load
        = ⟨⟨[], [], lastBatchTime⟩, none, none, []⟩) ∧
    (∀ (Ev : Type) (useCopyCommand : Bool) (describe : Nat → DescribeResponse),
      insertBatchData useCopyCommand ([] : List Ev) describe
        = .error "Cannot insert empty batch") := by
  refine ⟨?_, ?_, ?_⟩
  · intro Ev targetBatchSize maxWaitTimeMs now s parsed load b hflush
    simp only [pollStep] at hflush
    split at hflush
    · rename_i hcond
      have hlen : 0 < (s.accumulatedEvents ++ (parsed.map Prod.fst).flatten).length :=
        hcond.2
      split at hflush
      · split at hflush <;>
        · simp only [Option.some.injEq] at hflush
          subst hflush
          exact List.length_pos.mp hlen
      · simp only [Option.some.injEq] at hflush
        subst hflush
        exact List.length_pos.mp hlen
    · simp at hflush
  · intro Ev targetBatchSize maxWaitTimeMs lastBatchTime now load
    simp [pollStep]
  · intro Ev useCopyCommand describe
    simp [insertBatchData]

/-- C3: a batch is produced exactly when the buffered count reaches
`targetBatchSize` or the buffer is non-empty and the elapsed time since the
last flush reaches `maxWaitTimeMs`; offering exactly N events with no time
trigger flushes one batch of size N; offering fewer with the time trigger
flushes one batch of the smaller size; and when the size condition holds the
logged trigger reason is the size trigger, taking priority over timeout. -/
theorem flush_trigger_size_or_time :
    (∀ (Ev : Type) (targetBatchSize maxWaitTimeMs now : Nat) (s : PollState Ev)
        (parsed : List (List Ev × String)) (load : List Ev → Except String Nat),
      1 ≤ targetBatchSize →
      ((pollStep targetBatchSize maxWaitTimeMs s parsed now load).flushed.isSome ↔
        targetBatchSize ≤ (s.accumulatedEvents ++ (parsed.map Prod.fst).flatten).length ∨
          (0 < (s.accumulatedEvents ++ (parsed.map Prod.fst).flatten).length ∧
            maxWaitTimeMs ≤ now - s.lastBatchTime))) ∧
    (∀ (Ev : Type) (targetBatchSize maxWaitTimeMs lastBatchTime now : Nat)
        (events : List Ev) (h : String) (load : List Ev → Except String Nat),
      events.length = targetBatchSize → 1 ≤ targetBatchSize →
      now - lastBatchTime < maxWaitTimeMs →
      (pollStep targetBatchSize maxWaitTimeMs ⟨[], [], lastBatchTime⟩ [(events, h)] now
          load).flushed = some (events, [h])) ∧
    (∀ (Ev : Type) (targetBatchSize maxWaitTimeMs lastBatchTime now : Nat)
        (events : List Ev) (h : String) (load : List Ev → Except String Nat),
      events.length < targetBatchSize → 0 < events.length →
      maxWaitTimeMs ≤ now - lastBatchTime →
      (pollStep targetBatchSize maxWaitTimeMs ⟨[], [], lastBatchTime⟩ [(events, h)] now
          load).flushed = some (events, [h])) ∧
    (∀ (Ev : Type) (targetBatchSize maxWaitTimeMs now : Nat) (s : PollState Ev)
        (parsed : List (List Ev × String)) (load : List Ev → Except String Nat),
      1 ≤ targetBatchSize →
      targetBatchSize ≤ (s.accumulatedEvents ++ (parsed.map Prod.fst).flatten).length →
      (pollStep targetBatchSize maxWaitTimeMs s parsed now load).triggerReason
        = some "batch_size_reached") := by
  refine ⟨?_, ?_, ?_, ?_⟩
  · intro Ev targetBatchSize maxWaitTimeMs now s parsed load htgt
    simp only [pollStep]
    split
    · rename_i hcond
      refine iff_of_true ?_ hcond.1
      split
      · split <;> rfl
      · rfl
    · rename_i hcond
      refine iff_of_false (by simp) fun hc => hcond ?_
      rcases hc with h1 | h2
      · exact ⟨Or.inl h1, by omega⟩
      · exact ⟨Or.inr h2, h2.1⟩
  · intro Ev targetBatchSize maxWaitTimeMs lastBatchTime now events h load hlen htgt htime
    simp only [pollStep, List.map_cons, List.map_nil, List.flatten_cons, List.flatten_nil,
      List.append_nil, List.nil_append]
    rw [if_pos ⟨Or.inl (by omega), by omega⟩]
    cases hld : load events with
    | ok r => split <;> split <;> rfl
    | error e => rfl
  · intro Ev targetBatchSize maxWaitTimeMs lastBatchTime now events h load hlen hpos htime
    simp only [pollStep, List.map_cons, List.map_nil, List.flatten_cons, List.flatten_nil,
      List.append_nil, List.nil_append]
    rw [if_pos ⟨Or.inr ⟨by omega, by omega⟩, by omega⟩]
    cases hld : load events with
    | ok r => split <;> split <;> rfl
    | error e => rfl
  · intro Ev targetBatchSize maxWaitTimeMs now s parsed load htgt hsize
    simp only [pollStep]
    split
    · repeat' split
      all_goals rfl
    · rename_i hcond
      exact absurd ⟨Or.inl hsize, by omega⟩ hcond

/-- Witness for C3 at targetBatchSize 3 and maxWaitTime 1000: three events at
once flush by size; two events after a long wait flush by timeout. -/
theorem flush_trigger_size_or_time_witness :
    ((pollStep 3 1000 (⟨[], [], 0⟩ : PollState Nat) [([1, 2, 3], "h1")] 10
        (fun es => Except.ok es.length)).flushed.isSome ↔
      3 ≤ 3 ∨ (0 < 3 ∧ 1000 ≤ 10 - 0)) ∧
    (pollStep 3 1000 (⟨[], [], 0⟩ : PollState Nat) [([1, 2, 3], "h1")] 10
        (fun es => .ok es.length)).flushed = some ([1, 2, 3], ["h1"]) ∧
    (pollStep 3 1000 (⟨[], [], 0⟩ : PollState Nat) [([1, 2], "h1")] 2000
        (fun es => .ok es.length)).flushed = some ([1, 2], ["h1"]) ∧
    (pollStep 3 1000 (⟨[], [], 0⟩ : PollState Nat) [([1, 2, 3], "h1")] 10
        (fun es => .ok es.length)).triggerReason = some "batch_size_reached" :=
  ⟨flush_trigger_size_or_time.1 Nat 3 1000 10 ⟨[], [], 0⟩ [([1, 2, 3], "h1")]
      (fun es => .ok es.length) (by decide),
   flush_trigger_size_or_time.2.1 Nat 3 1000 0 10 [1, 2, 3] "h1"
      (fun es => .ok es.length) (by decide) (by decide) (by decide),
   flush_trigger_size_or_time.2.2.1 Nat 3 1000 0 2000 [1, 2] "h1"
      (fun es => .ok es.length) (by decide) (by decide) (by decide),
   flush_trigger_size_or_time.2.2.2 Nat 3 1000 10 ⟨[], [], 0⟩ [([1, 2, 3], "h1")]
      (fun es => .ok es.length) (by decide) (by decide)⟩

/-- When the first terminal description within the fuel bound is FINISHED,
the polling loop returns its reported row count (with the JS zero default). -/
theorem waitStmtGo_finished (describe : Nat → DescribeResponse) :
    ∀ (j fuel i : Nat), j < fuel →
      (∀ k, k < j → isActiveStmt (describe (i + k))) →
      (describe (i + j)).status = "FINISHED" →
      waitStmtGo describe fuel i = .ok (jsOrNat (describe (i + j)).resultRows 0) := by
  intro j
  induction j with
  | zero =>
    intro fuel i hj hact hfin
    match fuel, hj with
    | fuel + 1, _ =>
      simp only [waitStmtGo]
      rw [if_pos (by simpa using hfin)]
      simp
  | succ j ih =>
    intro fuel i hj hact hfin
    match fuel, hj with
    | fuel + 1, _ =>
      have hact0 : isActiveStmt (describe i) := by simpa using hact 0 (by omega)
      simp only [waitStmtGo]
      rw [if_neg hact0.1, if_neg (by push_neg; exact ⟨hact0.2.1, hact0.2.2⟩)]
      have hshift : ∀ k, k < j → isActiveStmt (describe (i + 1 + k)) := by
        intro k hk
        have : i + 1 + k = i + (k + 1) := by omega
        rw [this]
        exact hact (k + 1) (by omega)
      have hfin2 : (describe (i + 1 + j)).status = "FINISHED" := by
        have : i + 1 + j = i + (j + 1) := by omega
        rw [this]
        exact hfin
      rw [ih fuel (i + 1) (by omega) hshift hfin2]
      have : i + 1 + j = i + (j + 1) := by omega
      rw [this]

/-- When the first terminal description within the fuel bound is FAILED or
ABORTED, the polling loop raises the statement-failed error. -/
theorem waitStmtGo_failed (describe : Nat → DescribeResponse) :
    ∀ (j fuel i : Nat), j < fuel →
      (∀ k, k < j → isActiveStmt (describe (i + k))) →
      ((describe (i + j)).status = "FAILED" ∨ (describe (i + j)).status = "ABORTED") →
      waitStmtGo describe fuel i
        = .error ("CleverTap INSERT failed: "
            ++ ((describe (i + j)).error.getD "Unknown error")) := by
  intro j
  induction j with
  | zero =>
    intro fuel i hj hact hterm
    match fuel, hj with
    | fuel + 1, _ =>
      have hnf : (describe i).status ≠ "FINISHED" := by
        rcases hterm with h | h <;> simp only [Nat.add_zero] at h <;> rw [h] <;> decide
      simp only [waitStmtGo]
      rw [if_neg hnf, if_pos (by simpa using hterm)]
      simp
  | succ j ih =>
    intro fuel i hj hact hterm
    match fuel, hj with
    | fuel + 1, _ =>
      have hact0 : isActiveStmt (describe i) := by simpa using hact 0 (by omega)
      simp only [waitStmtGo]
      rw [if_neg hact0.1, if_neg (by push_neg; exact ⟨hact0.2.1, hact0.2.2⟩)]
      have hshift : ∀ k, k < j → isActiveStmt (describe (i + 1 + k)) := by
        intro k hk
        have : i + 1 + k = i + (k + 1) := by omega
        rw [this]
        exact hact (k + 1) (by omega)
      have hterm2 : (describe (i + 1 + j)).status = "FAILED"
          ∨ (describe (i + 1 + j)).status = "ABORTED" := by
        have : i + 1 + j = i + (j + 1) := by omega
        rw [this]
        exact hterm
      rw [ih fuel (i + 1) (by omega) hshift hterm2]
      have : i + 1 + j = i + (j + 1) := by omega
      rw [this]

/-- When every description within the fuel bound is still active, the polling
loop raises the timeout error. -/
theorem waitStmtGo_timeout (describe : Nat → DescribeResponse) :
    ∀ (fuel i : Nat), (∀ k, k < fuel → isActiveStmt (describe (i + k))) →
      waitStmtGo describe fuel i = .error "Timeout waiting for CleverTap INSERT to complete" := by
  intro fuel
  induction fuel with
  | zero => intro i hact; rfl
  | succ fuel ih =>
    intro i hact
    have hact0 : isActiveStmt (describe i) := by simpa using hact 0 (by omega)
    simp only [waitStmtGo]
    rw [if_neg hact0.1, if_neg (by push_neg; exact ⟨hact0.2.1, hact0.2.2⟩)]
    apply ih
    intro k hk
    have : i + 1 + k = i + (k + 1) := by omega
    rw [this]
    exact hact (k + 1) (by omega)

/-- The polling loop inspects only the first `fuel` descriptions. -/
theorem waitStmtGo_bounded (d1 d2 : Nat → DescribeResponse) :
    ∀ (fuel i : Nat), (∀ k, k < fuel → d1 (i + k) = d2 (i + k)) →
      waitStmtGo d1 fuel i = waitStmtGo d2 fuel i := by
  intro fuel
  induction fuel with
  | zero => intro i hagree; rfl
  | succ fuel ih =>
    intro i hagree
    have h0 : d1 i = d2 i := by simpa using hagree 0 (by omega)
    simp only [waitStmtGo, h0]
    split
    · rfl
    · split
      · rfl
      · apply ih
        intro k hk
        have : i + 1 + k = i + (k + 1) := by omega
        rw [this]
        exact hagree (k + 1) (by omega)

/-- When the first terminal description within the fuel bound is FINISHED,
the COPY polling loop of the S3-path consumer returns `ResultRows || 1`. -/
theorem waitCopyGo_finished (describe : Nat → DescribeResponse) :
    ∀ (j fuel i : Nat), j < fuel →
      (∀ k, k < j → isActiveCopyStmt (describe (i + k))) →
      (describe (i + j)).status = "FINISHED" →
      waitCopyGo describe fuel i = .ok (jsOrNat (describe (i + j)).resultRows 1) := by
  intro j
  induction j with
  | zero =>
    intro fuel i hj hact hfin
    match fuel, hj with
    | fuel + 1, _ =>
      simp only [waitCopyGo]
      rw [if_pos (by simpa using hfin)]
      simp
  | succ j ih =>
    intro fuel i hj hact hfin
    match fuel, hj with
    | fuel + 1, _ =>
      have hact0 : isActiveCopyStmt (describe i) := by simpa using hact 0 (by omega)
      simp only [waitCopyGo]
      rw [if_neg hact0.1, if_neg hact0.2]
      have hshift : ∀ k, k < j → isActiveCopyStmt (describe (i + 1 + k)) := by
        intro k hk
        have : i + 1 + k = i + (k + 1) := by omega
        rw [this]
        exact hact (k + 1) (by omega)
      have hfin2 : (describe (i + 1 + j)).status = "FINISHED" := by
        have : i + 1 + j = i + (j + 1) := by omega
        rw [this]
        exact hfin
      rw [ih fuel (i + 1) (by omega) hshift hfin2]
      have : i + 1 + j = i + (j + 1) := by omega
      rw [this]

/-- C8: the completion poll describes the statement for at most 180 attempts;
reaching FINISHED first returns the reported count, reaching FAILED or
ABORTED first raises the statement-failed error, 180 active descriptions
raise the timeout error, the poll never inspects a description beyond the
bound, and any load error, the timeout included, makes the consumer leave the
batch's messages undeleted. -/
theorem statement_poll_bounded_terminal :
    (∀ (describe : Nat → DescribeResponse) (j : Nat), j < 180 →
      (∀ k, k < j → isActiveStmt (describe k)) →
      (describe j).status = "FINISHED" →
      waitForStatementCompletion describe = .ok (jsOrNat (describe j).resultRows 0)) ∧
    (∀ (describe : Nat → DescribeResponse) (j : Nat), j < 180 →
      (∀ k, k < j → isActiveStmt (describe k)) →
      ((describe j).status = "FAILED" ∨ (describe j).status = "ABORTED") →
      waitForStatementCompletion describe
        = .error ("CleverTap INSERT failed: " ++ ((describe j).error.getD "Unknown error"))) ∧
    (∀ describe : Nat → DescribeResponse,
      (∀ k, k < 180 → isActiveStmt (describe k)) →
      waitForStatementCompletion describe
        = .error "Timeout waiting for CleverTap INSERT to complete") ∧
    (∀ d1 d2 : Nat → DescribeResponse, (∀ k, k < 180 → d1 k = d2 k) →
      waitForStatementCompletion d1 = waitForStatementCompletion d2) ∧
    (∀ (Ev : Type) (targetBatchSize maxWaitTimeMs now : Nat) (s : PollState Ev)
        (parsed : List (List Ev × String)) (load : List Ev → Except String Nat)
        (b : List Ev × List String) (e : String),
      (pollStep targetBatchSize maxWaitTimeMs s parsed now load).flushed = some b →
      load b.1 = .error e →
      (pollStep targetBatchSize maxWaitTimeMs s parsed now load).deleted = []) := by
  refine ⟨?_, ?_, ?_, ?_, ?_⟩
  · intro describe j hj hact hfin
    simpa using waitStmtGo_finished describe j 180 0 hj (by simpa using hact)
      (by simpa using hfin)
  · intro describe j hj hact hterm
    simpa using waitStmtGo_failed describe j 180 0 hj (by simpa using hact)
      (by simpa using hterm)
  · intro describe hact
    exact waitStmtGo_timeout describe 180 0 (by simpa using hact)
  · intro d1 d2 hagree
    exact waitStmtGo_bounded d1 d2 180 0 (by simpa using hagree)
  · intro Ev targetBatchSize maxWaitTimeMs now s parsed load b e hflush herr
    simp only [pollStep] at hflush ⊢
    split at hflush
    · rename_i hcond
      split
      · split at hflush
        · rename_i x rows hld
          split at hflush <;> simp only [Option.some.injEq] at hflush <;>
          · have hb1 : b.1 = s.accumulatedEvents ++ (parsed.map Prod.fst).flatten := by
              rw [← hflush]
            rw [hb1, hld] at herr
            simp at herr
        · rfl
      · rename_i hc2
        exact absurd hcond hc2
    · simp at hflush

/-- Witness for C8: an immediately FINISHED statement returns its reported
count, an immediate failure raises the failed error, a permanently running
statement raises the timeout error, and a failing load leaves the concrete
batch's receipt handle undeleted. -/
theorem statement_poll_bounded_terminal_witness :
    waitForStatementCompletion (fun _ => ⟨"FINISHED", some 7, none⟩) = .ok 7 ∧
    waitForStatementCompletion (fun _ => ⟨"FAILED", none, some "boom"⟩)
      = .error "CleverTap INSERT failed: boom" ∧
    waitForStatementCompletion (fun _ => ⟨"PICKED", none, none⟩)
      = .error "Timeout waiting for CleverTap INSERT to complete" ∧
    (pollStep 2 1000 (⟨[], [], 0⟩ : PollState Nat) [([1, 2], "h1")] 5
        (fun _ => .error "load failed")).deleted = [] :=
  ⟨statement_poll_bounded_terminal.1 (fun _ => ⟨"FINISHED", some 7, none⟩) 0 (by decide)
      (fun k hk => absurd hk (Nat.not_lt_zero k)) rfl,
   statement_poll_bounded_terminal.2.1 (fun _ => ⟨"FAILED", none, some "boom"⟩) 0 (by decide)
      (fun k hk => absurd hk (Nat.not_lt_zero k)) (Or.inl rfl),
   statement_poll_bounded_terminal.2.2.1 (fun _ => ⟨"PICKED", none, none⟩)
      (by intro k hk; simp [isActiveStmt]),
   statement_poll_bounded_terminal.2.2.2.2 Nat 2 1000 5 ⟨[], [], 0⟩ [([1, 2], "h1")]
      (fun _ => .error "load failed") ([1, 2], ["h1"]) "load failed" (by decide) rfl⟩

/-- C7 counterexample: the S3-path consumer's COPY poll, on a statement that
reaches FINISHED with zero reported rows for a staged file of five items,
returns the constant 1, not the submitted item count 5. -/
theorem s3_copy_zero_rows_returns_one :
    waitForCopyCompletion (fun _ => ⟨"FINISHED", some 0, none⟩) = .ok 1 ∧ (1 : Nat) ≠ 5 :=
  ⟨rfl, by decide⟩

/-- C7 amended: the batch-insert service's COPY path substitutes the
submitted item count when FINISHED reports zero rows and returns a positive
reported count as is, while the S3-path consumer's COPY poll substitutes the
constant 1 as a success marker when FINISHED reports zero rows (and likewise
returns a positive reported count as is). -/
theorem finished_zero_rows_success :
    (∀ (α : Type) (events : List α) (describe : Nat → DescribeResponse) (j : Nat),
      j < 180 → (∀ k, k < j → isActiveStmt (describe k)) →
      (describe j).status = "FINISHED" → jsOrNat (describe j).resultRows 0 = 0 →
      insertBatchDataWithCopy events describe = .ok events.length) ∧
    (∀ (α : Type) (events : List α) (describe : Nat → DescribeResponse) (j r : Nat),
      j < 180 → (∀ k, k < j → isActiveStmt (describe k)) →
      (describe j).status = "FINISHED" → jsOrNat (describe j).resultRows 0 = r → 0 < r →
      insertBatchDataWithCopy events describe = .ok r) ∧
    (∀ (describe : Nat → DescribeResponse) (j : Nat),
      j < 180 → (∀ k, k < j → isActiveCopyStmt (describe k)) →
      (describe j).status = "FINISHED" →
      waitForCopyCompletion describe = .ok (jsOrNat (describe j).resultRows 1)) := by
  refine ⟨?_, ?_, ?_⟩
  · intro α events describe j hj hact hfin hzero
    have hw : waitForStatementCompletion describe = .ok 0 := by
      rw [show (0 : Nat) = jsOrNat (describe j).resultRows 0 from hzero.symm]
      simpa using waitStmtGo_finished describe j 180 0 hj (by simpa using hact)
        (by simpa using hfin)
    unfold insertBatchDataWithCopy
    rw [hw]
    simp
  · intro α events describe j r hj hact hfin hrep hpos
    have hw : waitForStatementCompletion describe = .ok r := by
      rw [show r = jsOrNat (describe j).resultRows 0 from hrep.symm]
      simpa using waitStmtGo_finished describe j 180 0 hj (by simpa using hact)
        (by simpa using hfin)
    unfold insertBatchDataWithCopy
    rw [hw]
    simp [hpos]
  · intro describe j hj hact hfin
    simpa using waitCopyGo_finished describe j 180 0 hj (by simpa using hact)
      (by simpa using hfin)

/-- Witness for C7: a five-item batch with a FINISHED statement reporting
zero rows yields 5 on the batch-insert COPY path; a reported count of 9 is
returned as is; the S3-path COPY poll yields 1 on a zero report. -/
theorem finished_zero_rows_success_witness :
    insertBatchDataWithCopy ([1, 2, 3, 4, 5] : List Nat)
      (fun _ => ⟨"FINISHED", some 0, none⟩) = .ok 5 ∧
    insertBatchDataWithCopy ([1, 2] : List Nat)
      (fun _ => ⟨"FINISHED", some 9, none⟩) = .ok 9 ∧
    waitForCopyCompletion (fun _ => ⟨"FINISHED", some 0, none⟩) = .ok 1 :=
  ⟨finished_zero_rows_success.1 Nat [1, 2, 3, 4, 5] (fun _ => ⟨"FINISHED", some 0, none⟩) 0
      (by decide) (fun k hk => absurd hk (Nat.not_lt_zero k)) rfl rfl,
   finished_zero_rows_success.2.1 Nat [1, 2] (fun _ => ⟨"FINISHED", some 9, none⟩) 0 9
      (by decide) (fun k hk => absurd hk (Nat.not_lt_zero k)) rfl rfl (by decide),
   finished_zero_rows_success.2.2 (fun _ => ⟨"FINISHED", some 0, none⟩) 0 (by decide)
      (fun k hk => absurd hk (Nat.not_lt_zero k)) rfl⟩

/-- On a non-empty batch the COPY path substitutes the item count when the
reported row count is zero, so a successful COPY-path load is always at
least 1. -/
theorem insertBatchDataWithCopy_pos {α : Type} (events : List α)
    (describe : Nat → DescribeResponse) (n : Nat) (hne : events ≠ [])
    (hok : insertBatchDataWithCopy events describe = .ok n) : 1 ≤ n := by
  unfold insertBatchDataWithCopy at hok
  cases hw : waitForStatementCompletion describe with
  | ok r =>
    rw [hw] at hok
    simp only [Except.ok.injEq] at hok
    subst hok
    split
    · omega
    · have := List.length_pos.mpr hne
      omega
  | error e => rw [hw] at hok; cases hok

/-- C10: a successful COPY-mode load on a non-empty batch reports at least one
row, and under any such load outcome the consumer takes the deletion branch:
the zero-rows branch that withholds deletion is unreachable on a successful
COPY-mode load. -/
theorem copy_mode_zero_rows_branch_unreachable :
    (∀ (α : Type) (events : List α) (describe : Nat → DescribeResponse) (n : Nat),
      events ≠ [] → insertBatchData true events describe = .ok n → 1 ≤ n) ∧
    (∀ (Ev : Type) (targetBatchSize maxWaitTimeMs now : Nat) (s : PollState Ev)
        (parsed : List (List Ev × String)) (describe : Nat → DescribeResponse)
        (b : List Ev × List String) (n : Nat),
      (pollStep targetBatchSize maxWaitTimeMs s parsed now
          (fun es => insertBatchData true es describe)).flushed = some b →
      insertBatchData true b.1 describe = .ok n →
      (pollStep targetBatchSize maxWaitTimeMs s parsed now
          (fun es => insertBatchData true es describe)).deleted = b.2) := by
  have hpos : ∀ (α : Type) (events : List α) (describe : Nat → DescribeResponse) (n : Nat),
      events ≠ [] → insertBatchData true events describe = .ok n → 1 ≤ n := by
    intro α events describe n hne hok
    unfold insertBatchData at hok
    rw [if_neg (by simpa [List.length_eq_zero] using hne), if_pos rfl] at hok
    exact insertBatchDataWithCopy_pos events describe n hne hok
  refine ⟨hpos, ?_⟩
  intro Ev targetBatchSize maxWaitTimeMs now s parsed describe b n hflush hok
  simp only [pollStep] at hflush ⊢
  split at hflush
  · rename_i hcond
    have hne : s.accumulatedEvents ++ (parsed.map Prod.fst).flatten ≠ [] :=
      List.length_pos.mp hcond.2
    split
    · split at hflush
      · rename_i x rows hld
        split at hflush <;> rename_i hrows <;>
          simp only [Option.some.injEq] at hflush
        · have hb2 : b.2 = s.receiptHandles ++ parsed.map Prod.snd := by rw [← hflush]
          rw [if_pos hrows, hb2]
        · have hb1 : b.1 = s.accumulatedEvents ++ (parsed.map Prod.fst).flatten := by
            rw [← hflush]
          rw [hb1, hld] at hok
          simp only [Except.ok.injEq] at hok
          subst hok
          exact absurd (hpos Ev _ describe _ hne hld) (by omega)
      · rename_i x e hld
        simp only [Option.some.injEq] at hflush
        have hb1 : b.1 = s.accumulatedEvents ++ (parsed.map Prod.fst).flatten := by
          rw [← hflush]
        rw [hb1, hld] at hok
        simp at hok
    · rename_i hc2
      exact absurd hcond hc2
  · simp at hflush

/-- Witness for C10: a three-event batch whose COPY finishes with zero
reported rows yields 3, which is at least 1. -/
theorem copy_mode_zero_rows_branch_unreachable_witness :
    1 ≤ 3 ∧ insertBatchData true [10, 20, 30] (fun _ => ⟨"FINISHED", some 0, none⟩)
      = .ok 3 :=
  ⟨copy_mode_zero_rows_branch_unreachable.1 Nat [10, 20, 30]
      (fun _ => ⟨"FINISHED", some 0, none⟩) 3 (by decide) (by rfl),
   by rfl⟩

/-- Witness for C9 at a concrete flush: three events against a target of
three produce a non-empty batch, and the empty-batch rejection at a concrete
describe function. -/
theorem flush_zero_items_noop_witness :
    ([1, 2, 3] : List Nat) ≠ [] ∧
    insertBatchData true ([] : List Nat) (fun _ => ⟨"FINISHED", some 3, none⟩)
      = .error "Cannot insert empty batch" :=
  ⟨flush_zero_items_noop.1 Nat 3 1000 10 ⟨[], [], 0⟩ [([1, 2, 3], "h1")]
      (fun es => .ok es.length) ([1, 2, 3], ["h1"]) (by decide),
   flush_zero_items_noop.2.2 Nat true (fun _ => ⟨"FINISHED", some 3, none⟩)⟩

/-- C6: every sanitized column name consists only of letters, digits and
underscores, never starts with a digit, contains no two adjacent underscores,
and the additive column statement built for it uses the permissive wide-text
type VARCHAR(65535). -/
theorem sanitize_column_name_valid :
    (∀ (column : String) (c : Char),
      c ∈ (sanitizeColumnName column).toList → isWordChar c) ∧
    (∀ (column : String) (c : Char),
      (sanitizeColumnName column).toList.head? = some c → c.isDigit = false) ∧
    (∀ column : String,
      hasDoubleUnderscore (sanitizeColumnName column).toList = false) ∧
    (∀ tableName safeColumnName : String,
      ∃ p, alterAddColumnSql tableName safeColumnName = p ++ " VARCHAR(65535);") := by
  refine ⟨?_, ?_, ?_, ?_⟩
  · intro column c hc
    rw [sanitizeColumnName_toList] at hc
    simp only [List.mem_map] at hc
    obtain ⟨a, ha, rfl⟩ := hc
    have ha2 := collapseUnderscores_sub _ a ha
    rcases prefixDigit_sub _ a ha2 with h | h
    · exact jsToLowerChar_word a (replaceDisallowed_word _ a h)
    · subst h
      decide
  · intro column c hc
    rw [sanitizeColumnName_toList] at hc
    rw [List.head?_map] at hc
    cases hh : (collapseUnderscores (prefixDigit (replaceDisallowed column.toList))).head? with
    | none => rw [hh] at hc; cases hc
    | some x =>
      rw [hh] at hc
      simp only [Option.map_some', Option.some.injEq] at hc
      subst hc
      apply jsToLowerChar_not_digit
      apply prefixDigit_head_not_digit (replaceDisallowed column.toList) x
      rw [← collapseUnderscores_head]
      exact hh
  · intro column
    rw [sanitizeColumnName_toList, hasDoubleUnderscore_map]
    exact collapseUnderscores_noDouble _
  · intro tableName safeColumnName
    exact ⟨"ALTER TABLE " ++ tableName ++ " ADD COLUMN " ++ safeColumnName, rfl⟩

/-- Witness for C6 on the field name "9Ab-c__d": the sanitized name is
"_9ab_c_d", its head is the non-digit underscore, it has no adjacent
underscores, and its ALTER statement ends in the wide-text type. -/
theorem sanitize_column_name_valid_witness :
    isWordChar '_' ∧ ('_').isDigit = false ∧
    hasDoubleUnderscore (sanitizeColumnName "9Ab-c__d").toList = false ∧
    ∃ p, alterAddColumnSql "appsflyer.t" (sanitizeColumnName "9Ab-c__d")
      = p ++ " VARCHAR(65535);" :=
  ⟨sanitize_column_name_valid.1 "9Ab-c__d" '_' (by decide),
   sanitize_column_name_valid.2.1 "9Ab-c__d" '_' (by decide),
   sanitize_column_name_valid.2.2.1 "9Ab-c__d",
   sanitize_column_name_valid.2.2.2 "appsflyer.t" (sanitizeColumnName "9Ab-c__d")⟩

/-- The duplicate-column error message always contains the phrase the
synchronizer checks for. -/
theorem columnExistsError_includes (c : String) :
    includesSub (columnExistsError c) "already exists" = true := by
  simp only [includesSub, decide_eq_true_eq]
  show "already exists".toList <:+: (columnExistsError c).toList
  have h1 : (columnExistsError c).toList
      = ("column " ++ c).toList ++ " already exists".toList := by
    simp only [columnExistsError, String.toList, String.data_append]
  rw [h1, show (" already exists").toList = ' ' :: "already exists".toList from rfl]
  exact ((List.suffix_cons ' ' _).trans (List.suffix_append _ _)).isInfix

/-- ADD COLUMN fails exactly with the duplicate-column error, and only when
the column is already present case-insensitively. -/
theorem alterAddColumn_error (db : List String) (c e : String)
    (h : alterAddColumn db c = .error e) : e = columnExistsError c ∧ ciMem c db = true := by
  unfold alterAddColumn at h
  split at h
  · rename_i hc
    simp only [Except.error.injEq] at h
    exact ⟨h.symm, hc⟩
  · cases h

/-- A successful ADD COLUMN appends the column and certifies it was absent
case-insensitively. -/
theorem alterAddColumn_ok (db : List String) (c : String) (db1 : List String)
    (h : alterAddColumn db c = .ok db1) : db1 = db ++ [c] ∧ ciMem c db = false := by
  unfold alterAddColumn at h
  split at h
  · cases h
  · rename_i hc
    simp only [Except.ok.injEq] at h
    exact ⟨h.symm, Bool.eq_false_iff.mpr hc⟩

/-- Case-insensitive membership distributes over append. -/
theorem ciMem_append (c : String) (db ext : List String) :
    ciMem c (db ++ ext) = (ciMem c db || ciMem c ext) := by
  simp [ciMem, List.map_append, List.contains, List.elem_iff, List.mem_append]

/-- Case-insensitive membership survives extending the column set. -/
theorem ciMem_extend {c : String} {db : List String} (ext : List String)
    (h : ciMem c db = true) : ciMem c (db ++ ext) = true := by
  rw [ciMem_append, h, Bool.true_or]

/-- The column-adding loop never surfaces an error: its only failure is the
duplicate-column error, which it swallows as success. -/
theorem addColumnsLoop_fatal_none : ∀ (ms db : List String),
    (addColumnsLoop db ms).fatal = none
  | [], _ => rfl
  | column :: rest, db => by
    simp only [addColumnsLoop]
    split
    · exact addColumnsLoop_fatal_none rest db
    · cases halter : alterAddColumn db (sanitizeColumnName column) with
      | ok db1 =>
        show (addColumnsLoop db1 rest).fatal = none
        exact addColumnsLoop_fatal_none rest db1
      | error e =>
        obtain ⟨he, -⟩ := alterAddColumn_error _ _ _ halter
        subst he
        dsimp only
        rw [if_pos (columnExistsError_includes _)]
        show (addColumnsLoop db rest).fatal = none
        exact addColumnsLoop_fatal_none rest db

/-- The column-adding loop only ever appends columns. -/
theorem addColumnsLoop_db_extend : ∀ (ms db : List String),
    ∃ ext, (addColumnsLoop db ms).db = db ++ ext
  | [], db => ⟨[], by simp [addColumnsLoop]⟩
  | column :: rest, db => by
    simp only [addColumnsLoop]
    split
    · exact addColumnsLoop_db_extend rest db
    · cases halter : alterAddColumn db (sanitizeColumnName column) with
      | ok db1 =>
        obtain ⟨hdb1, -⟩ := alterAddColumn_ok _ _ _ halter
        obtain ⟨ext, hext⟩ := addColumnsLoop_db_extend rest db1
        refine ⟨[sanitizeColumnName column] ++ ext, ?_⟩
        show (addColumnsLoop db1 rest).db = db ++ ([sanitizeColumnName column] ++ ext)
        rw [hext, hdb1, List.append_assoc]
      | error e =>
        obtain ⟨he, -⟩ := alterAddColumn_error _ _ _ halter
        subst he
        dsimp only
        rw [if_pos (columnExistsError_includes _)]
        exact addColumnsLoop_db_extend rest db

/-- After the loop runs, every processed field's sanitized name is a column
of the final set, case-insensitively. -/
theorem addColumnsLoop_covers : ∀ (ms db : List String), ∀ h ∈ ms,
    ¬(sanitizeColumnName h = "" ∨ sanitizeColumnName h = "_") →
    ciMem (sanitizeColumnName h) (addColumnsLoop db ms).db = true
  | [], _ => by intro h hmem _; cases hmem
  | column :: rest, db => by
    intro h hmem hskip
    simp only [addColumnsLoop]
    rcases List.mem_cons.mp hmem with rfl | hmem2
    · rw [if_neg hskip]
      cases halter : alterAddColumn db (sanitizeColumnName h) with
      | ok db1 =>
        obtain ⟨hdb1, -⟩ := alterAddColumn_ok _ _ _ halter
        obtain ⟨ext, hext⟩ := addColumnsLoop_db_extend rest db1
        show ciMem (sanitizeColumnName h) (addColumnsLoop db1 rest).db = true
        rw [hext, hdb1, List.append_assoc]
        rw [ciMem_append]
        have hself : ciMem (sanitizeColumnName h) ([sanitizeColumnName h] ++ ext) = true := by
          rw [ciMem_append]
          simp [ciMem]
        rw [hself]
        simp
      | error e =>
        obtain ⟨he, hci⟩ := alterAddColumn_error _ _ _ halter
        subst he
        dsimp only
        rw [if_pos (columnExistsError_includes _)]
        obtain ⟨ext, hext⟩ := addColumnsLoop_db_extend rest db
        show ciMem (sanitizeColumnName h) (addColumnsLoop db rest).db = true
        rw [hext]
        exact ciMem_extend ext hci
    · split
      · exact addColumnsLoop_covers rest db h hmem2 hskip
      · cases halter : alterAddColumn db (sanitizeColumnName column) with
        | ok db1 =>
          show ciMem (sanitizeColumnName h) (addColumnsLoop db1 rest).db = true
          exact addColumnsLoop_covers rest db1 h hmem2 hskip
        | error e =>
          obtain ⟨he, -⟩ := alterAddColumn_error _ _ _ halter
          subst he
          dsimp only
          rw [if_pos (columnExistsError_includes _)]
          show ciMem (sanitizeColumnName h) (addColumnsLoop db rest).db = true
          exact addColumnsLoop_covers rest db h hmem2 hskip

/-- When every processed field's sanitized name is already a column, the loop
changes nothing. -/
theorem addColumnsLoop_stable : ∀ (ms db : List String),
    (∀ h ∈ ms, ¬(sanitizeColumnName h = "" ∨ sanitizeColumnName h = "_") →
      ciMem (sanitizeColumnName h) db = true) →
    (addColumnsLoop db ms).db = db
  | [], _ => by intro _; rfl
  | column :: rest, db => by
    intro hall
    simp only [addColumnsLoop]
    split
    · exact addColumnsLoop_stable rest db fun h hm hs => hall h (List.mem_cons_of_mem _ hm) hs
    · rename_i hskip
      cases halter : alterAddColumn db (sanitizeColumnName column) with
      | ok db1 =>
        obtain ⟨-, hci⟩ := alterAddColumn_ok _ _ _ halter
        rw [hall column (List.mem_cons_self _ _) hskip] at hci
        exact Bool.noConfusion hci
      | error e =>
        obtain ⟨he, -⟩ := alterAddColumn_error _ _ _ halter
        subst he
        dsimp only
        rw [if_pos (columnExistsError_includes _)]
        show (addColumnsLoop db rest).db = db
        exact addColumnsLoop_stable rest db fun h hm hs => hall h (List.mem_cons_of_mem _ hm) hs

/-- C5: the schema synchronizer surfaces no error, running it twice with the
same observed field set leaves the column set of the first run unchanged
(duplicate-column failures on the second run are swallowed as success), and
when every observed field is already a column case-insensitively it adds
zero columns and issues no ALTER statement. -/
theorem schema_sync_idempotent :
    (∀ db headers : List String,
      (syncSchema db headers).fatal = none ∧
      (syncSchema (syncSchema db headers).db headers).fatal = none ∧
      (syncSchema (syncSchema db headers).db headers).db = (syncSchema db headers).db) ∧
    (∀ db headers : List String,
      (∀ h ∈ headers, ciMem h db = true) →
      (syncSchema db headers).totalAdded = 0 ∧ (syncSchema db headers).issued = []) := by
  constructor
  · intro db headers
    refine ⟨addColumnsLoop_fatal_none _ _, addColumnsLoop_fatal_none _ _, ?_⟩
    show (addColumnsLoop (syncSchema db headers).db
        (headers.filter fun h => !(ciMem h (syncSchema db headers).db))).db
      = (syncSchema db headers).db
    apply addColumnsLoop_stable
    intro h hm hskip
    obtain ⟨hh, hci2⟩ := List.mem_filter.mp hm
    have hci3 : ciMem h (syncSchema db headers).db = false := by simpa using hci2
    have hdb : ciMem h db = false := by
      by_contra hc
      have hc2 : ciMem h db = true := by simpa using hc
      obtain ⟨ext, hext⟩ :=
        addColumnsLoop_db_extend (headers.filter fun x => !(ciMem x db)) db
      have hc3 : ciMem h (syncSchema db headers).db = true := by
        show ciMem h (addColumnsLoop db (headers.filter fun x => !(ciMem x db))).db = true
        rw [hext]
        exact ciMem_extend ext hc2
      rw [hc3] at hci3
      exact Bool.noConfusion hci3
    have hm1 : h ∈ headers.filter fun x => !(ciMem x db) := by
      rw [List.mem_filter]
      exact ⟨hh, by simp [hdb]⟩
    exact addColumnsLoop_covers (headers.filter fun x => !(ciMem x db)) db h hm1 hskip
  · intro db headers hall
    have hfilter : (headers.filter fun h => !(ciMem h db)) = [] := by
      rw [List.filter_eq_nil_iff]
      intro a ha
      simp [hall a ha]
    show ((addColumnsLoop db (headers.filter fun h => !(ciMem h db))).totalAdded = 0 ∧
      (addColumnsLoop db (headers.filter fun h => !(ciMem h db))).issued = [])
    rw [hfilter]
    exact ⟨rfl, rfl⟩

/-- Witness for C5 at a concrete table: a second run over the same headers
leaves the columns from the first run unchanged with no surfaced error, and
an all-present header set adds nothing. -/
theorem schema_sync_idempotent_witness :
    ((syncSchema ["event_date"] ["Event_Date", "user id", "9count"]).fatal = none ∧
      (syncSchema (syncSchema ["event_date"] ["Event_Date", "user id", "9count"]).db
          ["Event_Date", "user id", "9count"]).fatal = none ∧
      (syncSchema (syncSchema ["event_date"] ["Event_Date", "user id", "9count"]).db
          ["Event_Date", "user id", "9count"]).db
        = (syncSchema ["event_date"] ["Event_Date", "user id", "9count"]).db) ∧
    ((syncSchema ["event_date"] ["EVENT_DATE"]).totalAdded = 0 ∧
      (syncSchema ["event_date"] ["EVENT_DATE"]).issued = []) :=
  ⟨schema_sync_idempotent.1 ["event_date"] ["Event_Date", "user id", "9count"],
   schema_sync_idempotent.2 ["event_date"] ["EVENT_DATE"] (by decide)⟩

/-- C1 counterexample: in the S3-path consumer a message whose COPY load
fails (with an error that is not a missing-file error) still has its receipt
handle pushed for deletion, so a batch's messages are acknowledged even
though the primary-target load did not reach FINISHED. -/
theorem s3_path_consumer_acks_failed_load :
    (processPathMessage true false true (.error "COPY failed: Disk Full")).deleteMessage
      = true ∧
    (processPathMessage true false true (.error "COPY failed: Disk Full")).statCategory
      = "failed" := by
  constructor <;> decide

/-- C1 amended: in the batch-insert consumer a batch is never partially
acknowledged (either all accumulated receipt handles are deleted or none),
deletion happens exactly when the load returned a positive row count (all
handles on a positive count, none on a zero count or an error); the S3-path
consumer instead pushes every message's receipt handle for deletion whatever
the outcome, deliberately deleting even failed messages. -/
theorem batch_ack_all_or_nothing :
    (∀ (Ev : Type) (targetBatchSize maxWaitTimeMs now : Nat) (s : PollState Ev)
        (parsed : List (List Ev × String)) (load : List Ev → Except String Nat),
      (pollStep targetBatchSize maxWaitTimeMs s parsed now load).deleted = [] ∨
      ∃ b, (pollStep targetBatchSize maxWaitTimeMs s parsed now load).flushed = some b ∧
        (pollStep targetBatchSize maxWaitTimeMs s parsed now load).deleted = b.2) ∧
    (∀ (Ev : Type) (targetBatchSize maxWaitTimeMs now : Nat) (s : PollState Ev)
        (parsed : List (List Ev × String)) (load : List Ev → Except String Nat)
        (b : List Ev × List String) (n : Nat),
      (pollStep targetBatchSize maxWaitTimeMs s parsed now load).flushed = some b →
      load b.1 = .ok n → 0 < n →
      (pollStep targetBatchSize maxWaitTimeMs s parsed now load).deleted = b.2) ∧
    (∀ (Ev : Type) (targetBatchSize maxWaitTimeMs now : Nat) (s : PollState Ev)
        (parsed : List (List Ev × String)) (load : List Ev → Except String Nat)
        (b : List Ev × List String),
      (pollStep targetBatchSize maxWaitTimeMs s parsed now load).flushed = some b →
      load b.1 = .ok 0 →
      (pollStep targetBatchSize maxWaitTimeMs s parsed now load).deleted = []) ∧
    (∀ (Ev : Type) (targetBatchSize maxWaitTimeMs now : Nat) (s : PollState Ev)
        (parsed : List (List Ev × String)) (load : List Ev → Except String Nat)
        (b : List Ev × List String) (e : String),
      (pollStep targetBatchSize maxWaitTimeMs s parsed now load).flushed = some b →
      load b.1 = .error e →
      (pollStep targetBatchSize maxWaitTimeMs s parsed now load).deleted = []) ∧
    (∀ (hasPath alreadyProcessedInBatch fileExists : Bool)
        (copyResult : Except String Nat),
      (processPathMessage hasPath alreadyProcessedInBatch fileExists
          copyResult).deleteMessage = true) := by
  refine ⟨?_, ?_, ?_, ?_, ?_⟩
  · intro Ev targetBatchSize maxWaitTimeMs now s parsed load
    simp only [pollStep]
    split
    · split
      · split
        · exact Or.inr ⟨_, rfl, rfl⟩
        · exact Or.inl rfl
      · exact Or.inl rfl
    · exact Or.inl rfl
  · intro Ev targetBatchSize maxWaitTimeMs now s parsed load b n hflush hok hpos
    simp only [pollStep] at hflush ⊢
    split at hflush
    · rename_i hcond
      split
      · split at hflush
        · rename_i x rows hld
          split at hflush <;> rename_i hrows <;>
            simp only [Option.some.injEq] at hflush
          · have hb2 : b.2 = s.receiptHandles ++ parsed.map Prod.snd := by rw [← hflush]
            rw [if_pos hrows, hb2]
          · have hb1 : b.1 = s.accumulatedEvents ++ (parsed.map Prod.fst).flatten := by
              rw [← hflush]
            rw [hb1, hld] at hok
            simp only [Except.ok.injEq] at hok
            omega
        · rename_i x e hld
          simp only [Option.some.injEq] at hflush
          have hb1 : b.1 = s.accumulatedEvents ++ (parsed.map Prod.fst).flatten := by
            rw [← hflush]
          rw [hb1, hld] at hok
          simp at hok
      · rename_i hc2
        exact absurd hcond hc2
    · simp at hflush
  · intro Ev targetBatchSize maxWaitTimeMs now s parsed load b hflush hok
    simp only [pollStep] at hflush ⊢
    split at hflush
    · rename_i hcond
      split
      · split at hflush
        · rename_i x rows hld
          split at hflush <;> rename_i hrows <;>
            simp only [Option.some.injEq] at hflush
          · have hb1 : b.1 = s.accumulatedEvents ++ (parsed.map Prod.fst).flatten := by
              rw [← hflush]
            rw [hb1, hld] at hok
            simp only [Except.ok.injEq] at hok
            omega
          · rw [if_neg hrows]
        · rfl
      · rename_i hc2
        exact absurd hcond hc2
    · simp at hflush
  · intro Ev targetBatchSize maxWaitTimeMs now s parsed load b e hflush herr
    simp only [pollStep] at hflush ⊢
    split at hflush
    · rename_i hcond
      split
      · split at hflush
        · rename_i x rows hld
          split at hflush <;> simp only [Option.some.injEq] at hflush <;>
          · have hb1 : b.1 = s.accumulatedEvents ++ (parsed.map Prod.fst).flatten := by
              rw [← hflush]
            rw [hb1, hld] at herr
            simp at herr
        · rfl
      · rename_i hc2
        exact absurd hcond hc2
    · simp at hflush
  · intro hasPath alreadyProcessedInBatch fileExists copyResult
    simp only [processPathMessage]
    repeat' split
    all_goals rfl

/-- Witness for C1 at a concrete two-message batch: a positive-row load
deletes both handles together, a failed load deletes neither, and the
S3-path consumer deletes a message even on a failed COPY. -/
theorem batch_ack_all_or_nothing_witness :
    (pollStep 3 1000 (⟨[], [], 0⟩ : PollState Nat) [([1, 2], "h1"), ([3], "h2")] 10
        (fun es => .ok es.length)).deleted = ["h1", "h2"] ∧
    (pollStep 3 1000 (⟨[], [], 0⟩ : PollState Nat) [([1, 2], "h1"), ([3], "h2")] 10
        (fun _ => .error "load failed")).deleted = [] ∧
    (processPathMessage true false true (.error "COPY failed: Disk Full")).deleteMessage
      = true :=
  ⟨batch_ack_all_or_nothing.2.1 Nat 3 1000 10 ⟨[], [], 0⟩ [([1, 2], "h1"), ([3], "h2")]
      (fun es => .ok es.length) ([1, 2, 3], ["h1", "h2"]) 3 (by decide) rfl
      (by decide),
   batch_ack_all_or_nothing.2.2.2.1 Nat 3 1000 10 ⟨[], [], 0⟩ [([1, 2], "h1"), ([3], "h2")]
      (fun _ => .error "load failed") ([1, 2, 3], ["h1", "h2"]) "load failed" (by decide)
      rfl,
   batch_ack_all_or_nothing.2.2.2.2 true false true (.error "COPY failed: Disk Full")⟩
